import Mathlib

/-!
Shallow embedding of the authentication/authorization core of the
`agentic-taskops-api` repository, with theorems checking the frozen claims
against it. Each definition is translated from the Python source file named
in its doc comment; behavior of external libraries (python-jose, passlib's
CryptContext with the bcrypt scheme, SQL equality on Postgres text columns)
is modelled per those libraries' documented semantics, noted where used.
-/

namespace TaskOps

/-- Relevant fields of `config/settings.py` `Settings`: secret key, signing
algorithm identifier, and access-token lifetime (minutes, default 30). -/
structure Settings where
  SECRET_KEY : String
  ALGORITHM : String
  ACCESS_TOKEN_EXPIRE_MINUTES : Nat
deriving DecidableEq, Repr

/-- A FastAPI `HTTPException` as raised by the source: status code, detail
string, and response headers. -/
structure HTTPError where
  status_code : Nat
  detail : String
  headers : List (String × String)
deriving DecidableEq, Repr

/-! ## JWT model (`app/core/security.py` with python-jose)

A signed token is modelled as its claim set together with the key and
algorithm it was signed with; `jose.jwt.decode` succeeds exactly when the
structure is well formed, the algorithm is in the allowed list, and the
signature verifies against the supplied key. The `exp` claim is kept as a
separate field because `create_access_token` always overwrites it
(`to_encode.update` with the computed expiry); times are seconds since the
epoch. python-jose validates `exp` with zero leeway: the token is expired
iff `exp < now`. -/

structure TokenPayload where
  claims : List (String × String)
  exp : Nat
deriving DecidableEq, Repr

inductive JWTWire where
  /-- A structurally well-formed JWT signed with `key` using `alg`. -/
  | signed (payload : TokenPayload) (key : String) (alg : String)
  /-- A string that is not a decodable JWT at all. -/
  | malformed (raw : String)
deriving DecidableEq, Repr

/-- `payload.get "sub"`: first binding for the key, if any. -/
def lookupClaim (k : String) (cs : List (String × String)) : Option String :=
  match cs.find? (fun c => c.fst == k) with
  | some c => some c.snd
  | none => none

/-- `create_access_token` (`app/core/security.py` lines 63-82): copies `data`,
computes `expire` as now plus the override delta or the configured default
lifetime, sets the `exp` claim, and signs with the configured secret and
algorithm. -/
def create_access_token (s : Settings) (data : List (String × String))
    (expires_delta : Option Nat) (now : Nat) : JWTWire :=
  let expire : Nat :=
    match expires_delta with
    | some d => now + d
    | none => now + s.ACCESS_TOKEN_EXPIRE_MINUTES * 60
  JWTWire.signed ⟨data, expire⟩ s.SECRET_KEY s.ALGORITHM

/-- `decode_access_token` (`app/core/security.py` lines 85-105): calls
`jwt.decode(token, SECRET_KEY, algorithms=[ALGORITHM])` inside
`try/except JWTError`, so malformed structure, wrong key, wrong algorithm,
and expiry all collapse to `None`; otherwise returns `payload.get("sub")`,
or `None` when that claim is absent. -/
def decode_access_token (s : Settings) (token : JWTWire) (now : Nat) :
    Option String :=
  match token with
  | JWTWire.malformed _ => none
  | JWTWire.signed payload key alg =>
    if key == s.SECRET_KEY && alg == s.ALGORITHM then
      if payload.exp < now then none
      else lookupClaim "sub" payload.claims
    else none

/-! ## Password hashing (`app/core/security.py` with passlib bcrypt)

`pwd_context = CryptContext(schemes=["bcrypt"])`. The bcrypt primitive uses
only the first 72 bytes of the secret; passlib's default policy
(`truncate_error=False`) is to truncate longer secrets silently, during both
hashing and verification. Passlib's bcrypt handler raises
`NullPasswordError` (a `ValueError`) whenever the secret it is given to hash
or verify contains a NUL byte — the check runs on the full encoded secret it
receives, before the backend's 72-byte truncation. The hash is idealized as
injective: a well-formed bcrypt hash records the salt and determines the (at
most 72) secret bytes it was computed from, and verification recomputes over
the supplied secret and compares inside the primitive. `CryptContext.verify`
raises `ValueError` ("hash could not be identified") when the stored hash
matches no configured scheme — during identification, before any secret
processing. `Except.error` results represent the raised exceptions. -/

inductive StoredHash where
  /-- A well-formed bcrypt hash string: salt plus a digest that (in the
  injective idealization) determines the at-most-72 hashed secret bytes. -/
  | bcrypt (salt : Nat) (digest : List Nat)
  /-- A string that no configured passlib scheme identifies as one of its
  hashes. -/
  | unrecognized (raw : String)
deriving DecidableEq, Repr

/-- UTF-8 encoding of one character (RFC 3629). -/
def charUtf8 (c : Char) : List Nat :=
  let n := c.toNat
  if n < 0x80 then [n]
  else if n < 0x800 then
    [0xC0 + n / 0x40, 0x80 + n % 0x40]
  else if n < 0x10000 then
    [0xE0 + n / 0x1000, 0x80 + n / 0x40 % 0x40, 0x80 + n % 0x40]
  else
    [0xF0 + n / 0x40000, 0x80 + n / 0x1000 % 0x40, 0x80 + n / 0x40 % 0x40,
      0x80 + n % 0x40]

/-- `password.encode("utf-8")` as a byte list. -/
def strBytes (s : String) : List Nat :=
  s.data.foldr (fun c acc => charUtf8 c ++ acc) []

/-- The message of passlib's `NullPasswordError` (a `ValueError`), raised by
the bcrypt handler when the secret contains a NUL byte. -/
def null_password_error : String := "password must not contain NULL bytes"

/-- `pwd_context.hash(secret)` for the bcrypt scheme: raises
`NullPasswordError` when the secret it receives contains a NUL byte;
otherwise hashes the first 72 bytes of the secret with a fresh salt. -/
def pwd_context_hash (secret : List Nat) (salt : Nat) :
    Except String StoredHash :=
  if secret.contains 0 then Except.error null_password_error
  else Except.ok (StoredHash.bcrypt salt (secret.take 72))

/-- `pwd_context.verify(secret, hash)`: raises `ValueError` during hash
identification when the stored hash matches no configured scheme; then
raises `NullPasswordError` when the full secret contains a NUL byte (the
check precedes the backend's truncation); otherwise the bcrypt primitive
recomputes over the first 72 secret bytes and compares to the digest. -/
def pwd_context_verify (secret : List Nat) (h : StoredHash) :
    Except String Bool :=
  match h with
  | StoredHash.unrecognized _ => Except.error "hash could not be identified"
  | StoredHash.bcrypt _ digest =>
    if secret.contains 0 then Except.error null_password_error
    else Except.ok (secret.take 72 == digest)

/-- `get_password_hash` (`app/core/security.py` lines 32-48): encodes the
password to UTF-8 bytes, truncates to 72 bytes, then hashes. The truncation
happens before `pwd_context.hash` runs its NUL check, so only a NUL byte
within the first 72 bytes makes hashing raise. -/
def get_password_hash (password : String) (salt : Nat) :
    Except String StoredHash :=
  pwd_context_hash ((strBytes password).take 72) salt

/-- `verify_password` (`app/core/security.py` lines 18-29): passes the plain
password straight to `pwd_context.verify`, with no `try/except`. -/
def verify_password (plain_password : String) (hashed_password : StoredHash) :
    Except String Bool :=
  pwd_context_verify (strBytes plain_password) hashed_password

/-! ## Users (`app/models/user.py`, `app/services/user_service.py`) -/

/-- The `User` table model: optional autoassigned id, email, stored hash,
active flag (default true). -/
structure User where
  id : Option Nat
  email : String
  hashed_password : StoredHash
  is_active : Bool
deriving DecidableEq, Repr

structure UserCreate where
  email : String
  password : String
deriving DecidableEq, Repr

/-- `get_user_by_email` (`app/services/user_service.py` lines 9-22):
`select(User).where(User.email == email)`, first row or `None`. SQL `=` on a
Postgres text column is an exact, case-sensitive comparison. -/
def get_user_by_email (store : List User) (email : String) : Option User :=
  store.find? (fun u => u.email == email)

/-- `create_user` (`app/services/user_service.py` lines 25-62): if the email
lookup finds an existing user, raises 409 Conflict (the store untouched:
nothing was added or committed, and the password is never hashed); otherwise
hashes the password — a `ValueError` raised there propagates out of the
service before any insert — then inserts the new user (id assigned by the
database, `is_active` defaulting true) and returns it. The outer `Except`
is the propagated `ValueError`; inside it the outcome is paired with the
resulting store. -/
def create_user (store : List User) (user_in : UserCreate)
    (salt newId : Nat) :
    Except String (Except HTTPError User × List User) :=
  match get_user_by_email store user_in.email with
  | some _ =>
    Except.ok
      (Except.error ⟨409, "A user with this email already exists.", []⟩, store)
  | none =>
    match get_password_hash user_in.password salt with
    | Except.error e => Except.error e
    | Except.ok hashed_password =>
      let db_user : User := ⟨some newId, user_in.email, hashed_password, true⟩
      Except.ok (Except.ok db_user, store ++ [db_user])

/-! ## Identity resolution (`app/core/dependencies.py`) -/

/-- The single `credentials_exception` of `get_current_user` (lines 23-27):
401 with detail "Could not validate credentials" and a `WWW-Authenticate`
header. -/
def credentials_exception : HTTPError :=
  ⟨401, "Could not validate credentials", [("WWW-Authenticate", "Bearer")]⟩

/-- `get_current_user` (`app/core/dependencies.py` lines 16-38): decodes the
token; `if not email` (i.e. `None` or the empty string) raises the
credentials exception; then looks the email up and raises the same
exception when no user exists; otherwise returns the user. -/
def get_current_user (s : Settings) (store : List User) (token : JWTWire)
    (now : Nat) : Except HTTPError User :=
  match decode_access_token s token now with
  | none => Except.error credentials_exception
  | some email =>
    if email == "" then Except.error credentials_exception
    else
      match get_user_by_email store email with
      | none => Except.error credentials_exception
      | some user => Except.ok user

/-! ## Tasks (`app/models/task.py`, `app/services/task_service.py`) -/

inductive TaskStatus where
  | pending
  | in_progress
  | completed
  | failed
deriving DecidableEq, Repr

/-- The `Task` table model. `title` and `status` are non-nullable columns,
but the Python attributes can transiently hold `None` (a table model does
not re-validate on `setattr`), so the fields are `Option`-typed with the
database row always populating them. `owner_id` is a required foreign key. -/
structure Task where
  id : Option Nat
  title : Option String
  description : Option String
  status : Option TaskStatus
  owner_id : Nat
deriving DecidableEq, Repr

/-- `TaskUpdate` (`app/models/task.py` lines 50-53): three optional fields
and no owner field. `fields_set` is pydantic's record of which fields were
explicitly provided (`model_fields_set`), the set that
`model_dump(exclude_unset=True)` keeps. -/
structure TaskUpdate where
  title : Option String
  description : Option String
  status : Option TaskStatus
  fields_set : List String
deriving DecidableEq, Repr

/-- The 404 raised by `get_task_for_user`. -/
def taskNotFound : HTTPError := ⟨404, "Task not found", []⟩

/-- The combined filter of `get_task_for_user`:
`Task.id == task_id, Task.owner_id == owner.id`. When `owner.id` is `None`
the SQL comparison is against NULL and matches no row. -/
def taskMatches (task_id : Nat) (owner : User) (t : Task) : Bool :=
  t.id == some task_id &&
    match owner.id with
    | some oid => t.owner_id == oid
    | none => false

/-- `get_task_for_user` (`app/services/task_service.py` lines 57-79): one
`select` filtered by both the task id and the owner id, first row; raises
404 "Task not found" when no row matches. -/
def get_task_for_user (store : List Task) (task_id : Nat) (owner : User) :
    Except HTTPError Task :=
  match store.find? (taskMatches task_id owner) with
  | some task => Except.ok task
  | none => Except.error taskNotFound

/-- The `setattr` loop of `update_task_for_user` over
`task_update.model_dump(exclude_unset=True)`: each field explicitly set in
the payload is assigned, every other attribute is untouched. -/
def applyTaskUpdate (t : Task) (u : TaskUpdate) : Task :=
  let t1 := if u.fields_set.contains "title" then { t with title := u.title } else t
  let t2 :=
    if u.fields_set.contains "description" then { t1 with description := u.description }
    else t1
  if u.fields_set.contains "status" then { t2 with status := u.status } else t2

/-- `update_task_for_user` (`app/services/task_service.py` lines 81-115):
the ownership-guarded fetch, then the `exclude_unset` dump applied field by
field with `setattr`, then commit; returns the updated task. -/
def update_task_for_user (store : List Task) (task_id : Nat)
    (task_update : TaskUpdate) (owner : User) : Except HTTPError Task :=
  match get_task_for_user store task_id owner with
  | Except.error e => Except.error e
  | Except.ok db_task => Except.ok (applyTaskUpdate db_task task_update)

/-- `delete_task_for_user` (`app/services/task_service.py` lines 117-133):
the same guarded fetch, then deletion; returns the store without the task. -/
def delete_task_for_user (store : List Task) (task_id : Nat) (owner : User) :
    Except HTTPError (List Task) :=
  match get_task_for_user store task_id owner with
  | Except.error e => Except.error e
  | Except.ok task => Except.ok (store.filter (fun t => !(t == task)))

/-! ## Theorems about the claims -/

/-- C3: validating a token immediately after issuance returns the subject:
for every subject, positive lifetime, and validation time before the expiry
instant, `decode_access_token` of `create_access_token` on a sub claim
yields that subject. -/
theorem c3_issue_validate_roundtrip (s : Settings) (sub : String)
    (lifetime now t : Nat) (hpos : 0 < lifetime) (ht : t < now + lifetime) :
    decode_access_token s
      (create_access_token s [("sub", sub)] (some lifetime) now) t = some sub := by
  simp only [create_access_token, decode_access_token]
  rw [if_pos (by simp), if_neg (by omega)]
  simp [lookupClaim]

theorem c3_witness :
    0 < 60 ∧ 10 < 0 + 60 ∧
    decode_access_token ⟨"k", "HS256", 30⟩
      (create_access_token ⟨"k", "HS256", 30⟩ [("sub", "a@x.com")] (some 60) 0)
      10 = some "a@x.com" :=
  ⟨by decide, by decide,
    c3_issue_validate_roundtrip ⟨"k", "HS256", 30⟩ "a@x.com" 60 0 10
      (by decide) (by decide)⟩

/-- C4: `decode_access_token` produces the single invalid outcome `none` on
every failure — malformed structure, wrong key (bad signature), wrong
algorithm, and expiry in the past — and an expired token is invalid
regardless of which key (in particular the correct one) signed it. -/
theorem c4_single_invalid_outcome (s : Settings) (now : Nat) :
    (∀ raw, decode_access_token s (JWTWire.malformed raw) now = none) ∧
    (∀ (p : TokenPayload) (key alg : String), key ≠ s.SECRET_KEY →
        decode_access_token s (JWTWire.signed p key alg) now = none) ∧
    (∀ (p : TokenPayload) (key alg : String), alg ≠ s.ALGORITHM →
        decode_access_token s (JWTWire.signed p key alg) now = none) ∧
    (∀ (p : TokenPayload) (key alg : String), p.exp < now →
        decode_access_token s (JWTWire.signed p key alg) now = none) := by
  refine ⟨fun raw => rfl, ?_, ?_, ?_⟩
  · intro p key alg hk
    simp [decode_access_token, hk]
  · intro p key alg ha
    simp [decode_access_token, ha]
  · intro p key alg hexp
    simp only [decode_access_token]
    split <;> simp [hexp]

theorem c4_witness :
    decode_access_token ⟨"k", "HS256", 30⟩ (JWTWire.malformed "xx") 50 = none ∧
    decode_access_token ⟨"k", "HS256", 30⟩
      (JWTWire.signed ⟨[("sub", "a@x.com")], 100⟩ "other" "HS256") 50 = none ∧
    decode_access_token ⟨"k", "HS256", 30⟩
      (JWTWire.signed ⟨[("sub", "a@x.com")], 100⟩ "k" "RS256") 50 = none ∧
    decode_access_token ⟨"k", "HS256", 30⟩
      (JWTWire.signed ⟨[("sub", "a@x.com")], 40⟩ "k" "HS256") 50 = none :=
  ⟨(c4_single_invalid_outcome ⟨"k", "HS256", 30⟩ 50).1 "xx",
    (c4_single_invalid_outcome ⟨"k", "HS256", 30⟩ 50).2.1 _ _ _ (by decide),
    (c4_single_invalid_outcome ⟨"k", "HS256", 30⟩ 50).2.2.1 _ _ _ (by decide),
    (c4_single_invalid_outcome ⟨"k", "HS256", 30⟩ 50).2.2.2 _ _ _ (by decide)⟩

/-- C5 counterexample: the round trip does not succeed for every password
string. For a password containing a NUL byte, hashing itself raises
passlib's `NullPasswordError`, so `verify_password(p, get_password_hash(p))`
raises instead of returning true. -/
theorem c5_counterexample :
    get_password_hash (String.mk ['p', 'w', Char.ofNat 0, 'x']) 0 =
      Except.error null_password_error ∧
    (get_password_hash (String.mk ['p', 'w', Char.ofNat 0, 'x']) 0).bind
      (fun h => verify_password (String.mk ['p', 'w', Char.ofNat 0, 'x']) h) ≠
      Except.ok true :=
  ⟨rfl, fun h => Except.noConfusion h⟩

/-- C5 amended: for every password whose UTF-8 encoding contains no NUL byte
(of any length, including longer than 72 bytes), verifying it against its
own hash succeeds: hashing returns a hash and verification of the password
against it returns true. Passwords containing a NUL byte instead make
passlib raise `NullPasswordError`. -/
theorem c5_amended_verify_own_hash (p : String) (salt : Nat)
    (hnul : 0 ∉ strBytes p) :
    ∃ h, get_password_hash p salt = Except.ok h ∧
      verify_password p h = Except.ok true := by
  have h72 : 0 ∉ (strBytes p).take 72 :=
    fun hm => hnul (List.take_subset _ _ hm)
  refine ⟨StoredHash.bcrypt salt ((strBytes p).take 72), ?_, ?_⟩
  · simp [get_password_hash, pwd_context_hash, h72, List.take_take]
  · simp [verify_password, pwd_context_verify, hnul, List.take_take]

theorem c5_witness :
    (0 ∉ strBytes "secret123") ∧
    ∃ h, get_password_hash "secret123" 3 = Except.ok h ∧
      verify_password "secret123" h = Except.ok true :=
  ⟨by decide, c5_amended_verify_own_hash "secret123" 3 (by decide)⟩

/-- C6 counterexample: the truncation equivalence fails for a password with
a NUL byte beyond the 72-byte bound. With p the 72 bytes of "a…a" followed
by a NUL byte and "b", and q its first-72-bytes truncation, hashing q
succeeds, but verifying p against q's hash raises `NullPasswordError`
(the NUL check runs on the full secret), instead of returning true. -/
theorem c6_counterexample :
    72 < (strBytes (String.mk (List.replicate 72 'a' ++ [Char.ofNat 0, 'b']))).length ∧
    strBytes (String.mk (List.replicate 72 'a')) =
      (strBytes (String.mk (List.replicate 72 'a' ++ [Char.ofNat 0, 'b']))).take 72 ∧
    get_password_hash (String.mk (List.replicate 72 'a')) 1 =
      Except.ok (StoredHash.bcrypt 1 (List.replicate 72 97)) ∧
    verify_password (String.mk (List.replicate 72 'a' ++ [Char.ofNat 0, 'b']))
      (StoredHash.bcrypt 1 (List.replicate 72 97)) =
      Except.error null_password_error ∧
    verify_password (String.mk (List.replicate 72 'a' ++ [Char.ofNat 0, 'b']))
      (StoredHash.bcrypt 1 (List.replicate 72 97)) ≠ Except.ok true :=
  ⟨by decide, by decide, rfl, rfl, fun h => Except.noConfusion h⟩

/-- C6 amended: for every password whose UTF-8 encoding exceeds 72 bytes and
contains no NUL byte, the password and the one equal to its first-72-bytes
truncation behave as equivalent inputs: bytes beyond the bound are discarded
before hashing, and each of the two verifies against the hash produced from
the other. A NUL byte in the password instead makes passlib raise
`NullPasswordError` during hashing or verification. -/
theorem c6_amended_truncation_equivalent (p q : String) (salt₁ salt₂ : Nat)
    (hlen : 72 < (strBytes p).length)
    (hnul : 0 ∉ strBytes p)
    (htr : strBytes q = (strBytes p).take 72) :
    (∃ h, get_password_hash q salt₁ = Except.ok h ∧
        verify_password p h = Except.ok true) ∧
    (∃ h, get_password_hash p salt₂ = Except.ok h ∧
        verify_password q h = Except.ok true) := by
  have h72 : 0 ∉ (strBytes p).take 72 :=
    fun hm => hnul (List.take_subset _ _ hm)
  have hq : 0 ∉ strBytes q := by rw [htr]; exact h72
  constructor
  · refine ⟨StoredHash.bcrypt salt₁ ((strBytes q).take 72), ?_, ?_⟩
    · simp [get_password_hash, pwd_context_hash, hq, h72, htr, List.take_take]
    · simp [verify_password, pwd_context_verify, hnul, hq, h72, htr,
        List.take_take]
  · refine ⟨StoredHash.bcrypt salt₂ ((strBytes p).take 72), ?_, ?_⟩
    · simp [get_password_hash, pwd_context_hash, h72, hnul, List.take_take]
    · simp [verify_password, pwd_context_verify, hq, h72, htr, List.take_take]

theorem c6_witness :
    72 < (strBytes (String.mk (List.replicate 80 'a'))).length ∧
    (0 ∉ strBytes (String.mk (List.replicate 80 'a'))) ∧
    strBytes (String.mk (List.replicate 72 'a')) =
      (strBytes (String.mk (List.replicate 80 'a'))).take 72 ∧
    ((∃ h, get_password_hash (String.mk (List.replicate 72 'a')) 1 = Except.ok h ∧
        verify_password (String.mk (List.replicate 80 'a')) h = Except.ok true) ∧
      (∃ h, get_password_hash (String.mk (List.replicate 80 'a')) 2 = Except.ok h ∧
        verify_password (String.mk (List.replicate 72 'a')) h = Except.ok true)) :=
  ⟨by decide, by decide, by decide,
    c6_amended_truncation_equivalent (String.mk (List.replicate 80 'a'))
      (String.mk (List.replicate 72 'a')) 1 2 (by decide) (by decide) (by decide)⟩

/-- C7 counterexample: for a malformed stored hash, `verify_password` does
not return false — `pwd_context.verify` raises `ValueError` ("hash could not
be identified") and `verify_password` has no handler, so the exception
propagates. -/
theorem c7_counterexample :
    verify_password "password123" (StoredHash.unrecognized "not-a-hash") ≠
      Except.ok false ∧
    verify_password "password123" (StoredHash.unrecognized "not-a-hash") =
      Except.error "hash could not be identified" := by
  exact ⟨by simp [verify_password, pwd_context_verify], rfl⟩

/-- C7 amended: for every password and every malformed stored hash,
`verify_password` propagates passlib's `ValueError` ("hash could not be
identified") instead of returning false. -/
theorem c7_amended_raises (p raw : String) :
    verify_password p (StoredHash.unrecognized raw) =
      Except.error "hash could not be identified" := rfl

/-- C1: the ownership-guarded fetch queries the store filtered by both the
task id and the caller's owner id in one lookup and fails with 404
"Task not found" whenever no task matches both; for accounts A and B and a
task owned by A (task ids unambiguous in the store), A's fetch returns a
task with that id owned by A while B's fetch fails with the same 404. -/
theorem c1_ownership_guard :
    (∀ (store : List Task) (tid : Nat) (owner : User),
        (∀ t ∈ store, taskMatches tid owner t = false) →
        get_task_for_user store tid owner = Except.error taskNotFound) ∧
    (∀ (store : List Task) (tid : Nat) (a b : User) (t : Task),
        t ∈ store → t.id = some tid → a.id = some t.owner_id → b.id ≠ a.id →
        (∀ t' ∈ store, t'.id = some tid → t'.owner_id = t.owner_id) →
        (∃ t', get_task_for_user store tid a = Except.ok t' ∧
            t'.id = some tid ∧ a.id = some t'.owner_id) ∧
        get_task_for_user store tid b = Except.error taskNotFound) := by
  constructor
  · intro store tid owner h
    have hnone : store.find? (taskMatches tid owner) = none := by
      rw [List.find?_eq_none]
      intro x hx
      simp [h x hx]
    simp [get_task_for_user, hnone]
  · intro store tid a b t hmem hid ha hneq huniq
    constructor
    · have hsome : (store.find? (taskMatches tid a)).isSome := by
        rw [List.find?_isSome]
        exact ⟨t, hmem, by simp [taskMatches, hid, ha]⟩
      obtain ⟨t', ht'⟩ := Option.isSome_iff_exists.mp hsome
      have hp := List.find?_some ht'
      rw [taskMatches, ha, Bool.and_eq_true] at hp
      refine ⟨t', by simp [get_task_for_user, ht'], by simpa using hp.1, ?_⟩
      have hoo : t'.owner_id = t.owner_id := by simpa using hp.2
      rw [ha, hoo]
    · have hnone : store.find? (taskMatches tid b) = none := by
        rw [List.find?_eq_none]
        intro x hx hpx
        rw [taskMatches, Bool.and_eq_true] at hpx
        obtain ⟨hxid, hxmatch⟩ := hpx
        have hxid' : x.id = some tid := by simpa using hxid
        cases hb : b.id with
        | none => rw [hb] at hxmatch; exact Bool.false_ne_true hxmatch
        | some oid =>
          rw [hb] at hxmatch
          have hxo : x.owner_id = oid := by simpa using hxmatch
          exact hneq (by rw [hb, ha, ← huniq x hx hxid', hxo])
      simp [get_task_for_user, hnone]

/-- A one-task store for evaluating the ownership guard concretely. -/
def demoTask : Task := ⟨some 5, some "write spec", none, some TaskStatus.pending, 1⟩

def userA : User := ⟨some 1, "a@x.com", StoredHash.bcrypt 0 [], true⟩

def userB : User := ⟨some 2, "b@x.com", StoredHash.bcrypt 0 [], true⟩

theorem c1_witness :
    (∃ t', get_task_for_user [demoTask] 5 userA = Except.ok t' ∧
        t'.id = some 5 ∧ userA.id = some t'.owner_id) ∧
    get_task_for_user [demoTask] 5 userB = Except.error taskNotFound :=
  c1_ownership_guard.2 [demoTask] 5 userA userB demoTask (by decide)
    (by decide) (by decide) (by decide) (by decide)

/-- C2: identity resolution fails with exactly the same outcome — the one
401 "Could not validate credentials" exception — whether token validation
fails or the token decodes to a subject for which the account lookup finds
nothing, so the two causes are indistinguishable to the caller. -/
theorem c2_unauthenticated_indistinguishable (s : Settings)
    (store₁ store₂ : List User) (tok₁ tok₂ : JWTWire) (now₁ now₂ : Nat)
    (email : String)
    (h1 : decode_access_token s tok₁ now₁ = none)
    (h2 : decode_access_token s tok₂ now₂ = some email)
    (h3 : get_user_by_email store₂ email = none) :
    get_current_user s store₁ tok₁ now₁ = Except.error credentials_exception ∧
    get_current_user s store₂ tok₂ now₂ = Except.error credentials_exception ∧
    get_current_user s store₁ tok₁ now₁ = get_current_user s store₂ tok₂ now₂ := by
  have e1 : get_current_user s store₁ tok₁ now₁ =
      Except.error credentials_exception := by
    simp [get_current_user, h1]
  have e2 : get_current_user s store₂ tok₂ now₂ =
      Except.error credentials_exception := by
    simp only [get_current_user, h2, h3]
    split <;> rfl
  exact ⟨e1, e2, e1.trans e2.symm⟩

theorem c2_witness :
    get_current_user ⟨"k", "HS256", 30⟩ [] (JWTWire.malformed "xx") 0 =
      Except.error credentials_exception ∧
    get_current_user ⟨"k", "HS256", 30⟩ []
      (JWTWire.signed ⟨[("sub", "ghost@x.com")], 100⟩ "k" "HS256") 0 =
      Except.error credentials_exception :=
  have h := c2_unauthenticated_indistinguishable ⟨"k", "HS256", 30⟩ [] []
    (JWTWire.malformed "xx")
    (JWTWire.signed ⟨[("sub", "ghost@x.com")], 100⟩ "k" "HS256") 0 0
    "ghost@x.com" (by decide) (by decide) (by decide)
  ⟨h.1, h.2.1⟩

/-- C8 counterexample: the account lookup is not case-insensitive. With one
stored account whose email is "Alice@x.com", querying "alice@x.com" — the
same email up to letter case — finds nothing instead of returning the
account, because the SQL comparison is exact. -/
theorem c8_counterexample :
    ("Alice@x.com" ≠ "alice@x.com") ∧
    ("Alice@x.com".data.map Char.toLower = "alice@x.com".data.map Char.toLower) ∧
    get_user_by_email [⟨some 1, "Alice@x.com", StoredHash.bcrypt 0 [], true⟩]
      "alice@x.com" = none :=
  ⟨by decide, by decide, by decide⟩

/-- C8 amended: account lookup by email is an exact, case-sensitive match:
it only ever returns a stored account whose email equals the query string
exactly, and a query matching no stored email exactly (even one differing
only in letter case) returns absent. -/
theorem c8_amended_exact_match :
    (∀ (store : List User) (email : String) (u : User),
        get_user_by_email store email = some u → u ∈ store ∧ u.email = email) ∧
    (∀ (store : List User) (email : String),
        (∀ u ∈ store, u.email ≠ email) → get_user_by_email store email = none) := by
  constructor
  · intro store email u h
    exact ⟨List.mem_of_find?_eq_some h, by simpa using List.find?_some h⟩
  · intro store email h
    rw [get_user_by_email, List.find?_eq_none]
    intro u hu
    simpa using h u hu

theorem c8_amended_witness :
    get_user_by_email [⟨some 1, "Bob@x.com", StoredHash.bcrypt 0 [], true⟩]
      "bob@x.com" = none :=
  c8_amended_exact_match.2
    [⟨some 1, "Bob@x.com", StoredHash.bcrypt 0 [], true⟩] "bob@x.com"
    (by decide)

/-- C9: registering with an email for which an account already exists fails
with 409 Conflict (no `ValueError` either: the password is never hashed) and
returns the store unchanged — nothing is inserted and the existing account
(its stored hash included) is exactly as before. -/
theorem c9_duplicate_registration_conflict (store : List User)
    (user_in : UserCreate) (salt newId : Nat) (u : User)
    (hmem : u ∈ store) (hemail : u.email = user_in.email) :
    create_user store user_in salt newId =
      Except.ok
        (Except.error ⟨409, "A user with this email already exists.", []⟩,
          store) := by
  have hsome : (get_user_by_email store user_in.email).isSome := by
    rw [get_user_by_email, List.find?_isSome]
    exact ⟨u, hmem, by simp [hemail]⟩
  obtain ⟨v, hv⟩ := Option.isSome_iff_exists.mp hsome
  simp [create_user, hv]

theorem c9_witness :
    create_user [userA] ⟨"a@x.com", "hunter2hunter2"⟩ 7 2 =
      Except.ok
        (Except.error ⟨409, "A user with this email already exists.", []⟩,
          [userA]) :=
  c9_duplicate_registration_conflict [userA] ⟨"a@x.com", "hunter2hunter2"⟩
    7 2 userA (by decide) (by decide)

/-- C10: a successful guarded update changes only the fields explicitly set
in the payload: the task's id and owner id are always those of the fetched
task (`TaskUpdate` carries no owner field), every field absent from the
payload's set of explicitly provided fields keeps its prior value, and every
field present in it takes the payload's value. -/
theorem c10_update_frame (store : List Task) (tid : Nat) (u : TaskUpdate)
    (owner : User) (t t' : Task)
    (hget : get_task_for_user store tid owner = Except.ok t)
    (hupd : update_task_for_user store tid u owner = Except.ok t') :
    t'.id = t.id ∧ t'.owner_id = t.owner_id ∧
    ("title" ∉ u.fields_set → t'.title = t.title) ∧
    ("description" ∉ u.fields_set → t'.description = t.description) ∧
    ("status" ∉ u.fields_set → t'.status = t.status) ∧
    ("title" ∈ u.fields_set → t'.title = u.title) ∧
    ("description" ∈ u.fields_set → t'.description = u.description) ∧
    ("status" ∈ u.fields_set → t'.status = u.status) := by
  have ht' : t' = applyTaskUpdate t u := by
    rw [update_task_for_user, hget] at hupd
    simpa using hupd.symm
  subst ht'
  by_cases h1 : "title" ∈ u.fields_set <;>
    by_cases h2 : "description" ∈ u.fields_set <;>
      by_cases h3 : "status" ∈ u.fields_set <;>
        simp [applyTaskUpdate, h1, h2, h3]

theorem c10_witness :
    (get_task_for_user [demoTask] 5 userA = Except.ok demoTask) ∧
    update_task_for_user [demoTask] 5
      ⟨some "retitled", none, none, ["title"]⟩ userA =
      Except.ok ⟨some 5, some "retitled", none, some TaskStatus.pending, 1⟩ ∧
    (⟨some 5, some "retitled", none, some TaskStatus.pending, 1⟩ : Task).id =
      demoTask.id ∧
    (⟨some 5, some "retitled", none, some TaskStatus.pending, 1⟩ : Task).owner_id =
      demoTask.owner_id ∧
    (⟨some 5, some "retitled", none, some TaskStatus.pending, 1⟩ : Task).status =
      demoTask.status :=
  have h := c10_update_frame [demoTask] 5
    ⟨some "retitled", none, none, ["title"]⟩ userA demoTask
    ⟨some 5, some "retitled", none, some TaskStatus.pending, 1⟩
    rfl rfl
  ⟨rfl, rfl, h.1, h.2.1, h.2.2.2.2.1 (by decide)⟩

end TaskOps
